import Mathlib

set_option maxRecDepth 100000
set_option maxHeartbeats 1000000

/-!
Verification of the Peace Pulse wellness application's state store
(`wellness-context`), its localStorage persistence bridge, and the
chat component's crisis handling and keyword-rule classification
fallback (`ChatBot.tsx`), via a shallow embedding in Lean.
-/

namespace PeacePulse

/-- The five habit/todo categories. -/
inductive Category where
  | mindfulness
  | health
  | reflection
  | exercise
  | learning
deriving DecidableEq, Repr

/-- The five mood labels (the empty "no mood yet" state is `Option Mood`). -/
inductive Mood where
  | excellent
  | good
  | okay
  | poor
  | awful
deriving DecidableEq, Repr

/-- Sleep quality labels. -/
inductive Quality where
  | excellent
  | good
  | fair
  | poor
deriving DecidableEq, Repr

/-- Message sender. -/
inductive Sender where
  | user
  | bot
deriving DecidableEq, Repr

structure MoodEntry where
  date : String
  mood : Mood
  note : Option String
deriving DecidableEq, Repr

structure HabitItem where
  id : String
  name : String
  completed : Bool
  streak : Nat
  category : Category
  dateCompleted : Option String
deriving DecidableEq, Repr

structure TodoItem where
  id : String
  title : String
  completed : Bool
  category : Category
deriving DecidableEq, Repr

structure ChatMessage where
  id : String
  text : String
  sender : Sender
  timestamp : String
deriving DecidableEq, Repr

structure SleepEntry where
  id : String
  date : String
  bedtime : String
  wakeup : String
  durationMinutes : Nat
  quality : Quality
deriving DecidableEq, Repr

structure JournalEntry where
  id : String
  title : String
  content : String
  date : String
  mood : Option Mood
deriving DecidableEq, Repr

/-! ### String helpers

JavaScript `toLowerCase` and substring (regex alternation) matching,
modelled on the character list underlying a `String`. -/

/-- ASCII lowercasing of one character, as `Char.toLower`. -/
def lowerChar (c : Char) : Char :=
  if 65 ≤ c.toNat ∧ c.toNat ≤ 90 then Char.ofNat (c.toNat + 32) else c

/-- `s.toLowerCase()`. -/
def lowerStr (s : String) : String :=
  ⟨s.data.map lowerChar⟩

/-- Is `p` a prefix of `s` (on character lists)? -/
def listIsPrefix (p s : List Char) : Bool :=
  match p, s with
  | [], _ => true
  | _ :: _, [] => false
  | a :: p', b :: s' => a == b && listIsPrefix p' s'

/-- Does `s` contain `p` as a contiguous substring? -/
def listHasInfix (p s : List Char) : Bool :=
  match s with
  | [] => listIsPrefix p []
  | _ :: s' => listIsPrefix p s || listHasInfix p s'

/-- Does string `s` contain `p` as a substring? -/
def strHasSub (p s : String) : Bool :=
  listHasInfix p.data s.data

/-- Does `p` begin string `s`? -/
def strStartsWith (p s : String) : Bool :=
  listIsPrefix p.data s.data

/-- Does lowercased `s` contain any of the (lowercase) patterns?  This models
an un-anchored case-insensitive regex alternation test. -/
def matchesAny (pats : List String) (s : String) : Bool :=
  pats.any (fun p => strHasSub p (lowerStr s))

/-! ### ChatBot.tsx: crisis interjection and reply generation -/

/-- The alternatives of the crisis regex
`/(suicide|kill myself|end it|can't go on|self[- ]?harm|hurt myself)/i`. -/
def crisisPatterns : List String :=
  ["suicide", "kill myself", "end it", "can\x27t go on",
   "self-harm", "self harm", "selfharm", "hurt myself"]

/-- `crisisRegex.test(userText)`. -/
def crisisMatch (userText : String) : Bool :=
  matchesAny crisisPatterns userText

/-- The fixed safety preamble prepended to the model reply on a crisis match. -/
def safetyPreamble : String :=
  "I\x27m really sorry you\x27re feeling this way. You deserve immediate support. If you might be in danger or thinking about hurting yourself, please contact local emergency services, a trusted person, or a crisis line in your area right now. If you\x27d like, I can share grounding or breathing steps while you reach out. "

/-- The seven canned supportive fallback replies (`botResponses`). -/
def botResponses : List String :=
  ["That sounds like you\x27re going through a lot. Remember, it\x27s okay to feel this way.",
   "I hear you. Taking time for yourself is so important. Have you tried any breathing exercises today?",
   "It\x27s wonderful that you\x27re sharing this with me. What usually helps you feel better?",
   "Thank you for being open about your feelings. Would you like to try a quick mindfulness exercise?",
   "I understand. Sometimes just talking about it can help. Is there anything specific on your mind?",
   "That\x27s a great insight. How can we work together to support your wellbeing today?",
   "I\x27m glad you\x27re taking care of yourself. What\x27s one small thing you could do for yourself right now?"]

/-- Result of the external assistant call: the reply text on success, or a
thrown error (missing API key, network failure, ...). -/
def CallResult := Except Unit String

/-- `generateBotReply`: on a successful external call, interject the safety
preamble when the user text matches the crisis regex; a failed call is
re-thrown to the caller. -/
def generateBotReply (call : CallResult) (userText : String) : Except Unit String :=
  match call with
  | Except.error e => Except.error e
  | Except.ok text =>
      if crisisMatch userText then Except.ok (safetyPreamble ++ text)
      else Except.ok text

/-- The final bot reply text produced by `sendMessage`: the reply of
`generateBotReply` if it did not throw, otherwise a randomly chosen canned
response (`k` models the random index). -/
def sendMessageReply (call : CallResult) (userText : String) (k : Fin 7) : String :=
  match generateBotReply call userText with
  | Except.ok t => t
  | Except.error _ => botResponses.get ⟨k.1, by exact k.2⟩

/-! ### ChatBot.tsx: `fallbackAnalyze` -/

/-- The shape returned by message classification. -/
structure Analyzed where
  mood : Mood
  todos : List (String × Category)
deriving DecidableEq, Repr

/-- Mood chosen by the keyword rules, given the four regex test results in
source order (excellent-words, good-words, poor-words, awful-words). -/
def fallbackMood (ex gd pr aw : Bool) : Mood :=
  if ex then Mood.excellent
  else if gd then Mood.good
  else if pr then Mood.poor
  else if aw then Mood.awful
  else Mood.okay

/-- The fixed priority-ordered default todo list of `fallbackAnalyze`. -/
def defaultTodos : List (String × Category) :=
  [("Hydrate: 8 glasses of water", Category.health),
   ("10-minute walk", Category.exercise),
   ("Journal for 5 minutes", Category.reflection),
   ("5-minute breathing", Category.mindfulness),
   ("Read 10 pages", Category.learning)]

/-- Todo list built by `fallbackAnalyze`, given the four keyword test results
in source order (anxious/stressed/overwhelmed, tired/sleep/insomnia,
sad/down/lonely, angry/tense): the conditional pushes, then the defaults
appended while fewer than five items and the title is not among the
conditional titles, finally capped at five. -/
def fallbackTodos (anx tir sad ang : Bool) : List (String × Category) :=
  let todos :=
    (if anx then [("5-minute breathing", Category.mindfulness)] else [])
    ++ (if tir then [("Wind-down routine before bed", Category.health)] else [])
    ++ (if sad then [("Journal for 5 minutes", Category.reflection)] else [])
    ++ (if ang then [("10-minute walk", Category.exercise)] else [])
  let titles := todos.map Prod.fst
  let todos2 := defaultTodos.foldl
    (fun acc d => if acc.length < 5 ∧ ¬ (d.1 ∈ titles) then acc ++ [d] else acc)
    todos
  todos2.take 5

/-- `fallbackAnalyze(text)`: deterministic keyword-rule classification. -/
def fallbackAnalyze (text : String) : Analyzed :=
  { mood := fallbackMood
      (matchesAny ["great", "awesome", "fantastic", "amazing", "grateful", "happy", "joyful"] text)
      (matchesAny ["good", "fine", "better", "optimistic", "calm"] text)
      (matchesAny ["stressed", "anxious", "sad", "tired", "overwhelmed", "down", "lonely", "angry"] text)
      (matchesAny ["awful", "terrible", "horrible", "depressed", "can\x27t cope"] text),
    todos := fallbackTodos
      (matchesAny ["anxious", "stressed", "overwhelmed"] text)
      (matchesAny ["tired", "sleep", "insomnia"] text)
      (matchesAny ["sad", "down", "lonely"] text)
      (matchesAny ["angry", "tense"] text) }

/-! ### The wellness Store (`WellnessProvider` state and mutations)

Identifier and clock values (`Date.now() + random`, `new Date()`) are
impure in the source; they are passed as explicit parameters here. -/

structure StoreState where
  todayMood : Option Mood
  moodHistory : List MoodEntry
  habits : List HabitItem
  todos : List TodoItem
  chatMessages : List ChatMessage
  sleepEntries : List SleepEntry
  journalEntries : List JournalEntry
deriving DecidableEq, Repr

/-- The provider's initial chat transcript (one bot greeting); the greeting's
timestamp is `new Date().toISOString()`, passed in. -/
def initialChatMessages (ts : String) : List ChatMessage :=
  [{ id := "1",
     text := "Hello! I\x27m here to support you on your wellness journey. How are you feeling today?",
     sender := Sender.bot,
     timestamp := ts }]

/-- The provider's initial state (`ts`/`today` stand for the mount-time
clock readings used by the initial mood history and chat greeting). -/
def initialState (today ts : String) : StoreState :=
  { todayMood := none,
    moodHistory := [{ date := today, mood := Mood.good, note := some "Had a productive day at work" }],
    habits := [],
    todos := [],
    chatMessages := initialChatMessages ts,
    sleepEntries := [],
    journalEntries := [] }

/-- `setTodayMood(mood)`. -/
def setTodayMood (s : StoreState) (mood : Mood) : StoreState :=
  { s with todayMood := some mood }

/-- `addMoodEntry(mood, note?)` (`now` is `new Date().toISOString()`). -/
def addMoodEntry (s : StoreState) (mood : Mood) (note : Option String) (now : String) : StoreState :=
  { s with
    moodHistory := { date := now, mood := mood, note := note } :: s.moodHistory,
    todayMood := some mood }

/-- The body of `addHabit`, made explicit about React's stale closure: the
duplicate-name check reads `stale` (the `habits` value captured by the
render closure), while the functional update appends to `cur` (the
up-to-date `prev`).  In a direct `addHabit` call the two coincide;
inside an `addTodos` batch they differ. -/
def addHabitList (stale cur : List HabitItem) (name : String) (category : Category)
    (hid : String) : List HabitItem :=
  if stale.any (fun h => lowerStr h.name == lowerStr name) then cur
  else cur ++ [{ id := hid, name := name, completed := false, streak := 0,
                 category := category, dateCompleted := none }]

/-- `addHabit(name, category = "health")` (`hid` is the generated id). -/
def addHabit (s : StoreState) (name : String) (category : Category) (hid : String) : StoreState :=
  { s with habits := addHabitList s.habits s.habits name category hid }

/-- `toggleHabit(id)` (`today` is `new Date().toISOString().slice(0,10)`). -/
def toggleHabit (s : StoreState) (id today : String) : StoreState :=
  { s with habits := s.habits.map (fun habit =>
      if habit.id == id then
        { habit with
          completed := !habit.completed,
          streak := if habit.completed then habit.streak else habit.streak + 1,
          dateCompleted := if !habit.completed then some today else none }
      else habit) }

/-- `deleteHabit(id)`. -/
def deleteHabit (s : StoreState) (id : String) : StoreState :=
  { s with habits := s.habits.filter (fun h => !(h.id == id)) }

/-- An input item of `addTodos` (a `TodoItem` without id and completion). -/
structure TodoInput where
  title : String
  category : Category
deriving DecidableEq, Repr

/-- `addTodos(items)`: each item becomes a `TodoItem` (ids `tids`), the batch
is prepended to the todo list, and each item is mirrored into habits through
`addHabit` (ids `hids`).  Every mirrored `addHabit` call checks for
duplicates against the `habits` value captured by the render closure —
the pre-batch state `s.habits` — not against the accumulated list. -/
def addTodos (s : StoreState) (items : List TodoInput) (tids hids : List String) : StoreState :=
  let withIds := List.zipWith
    (fun (t : TodoInput) (i : String) =>
      { id := i, title := t.title, completed := false, category := t.category : TodoItem })
    items tids
  { s with
    todos := withIds ++ s.todos,
    habits := (List.zip withIds hids).foldl
      (fun acc p => addHabitList s.habits acc p.1.title p.1.category p.2)
      s.habits }

/-- `addChatMessage(message)`. -/
def addChatMessage (s : StoreState) (message : ChatMessage) : StoreState :=
  { s with chatMessages := s.chatMessages ++ [message] }

/-- A `SleepEntry` without its generated id. -/
structure SleepInput where
  date : String
  bedtime : String
  wakeup : String
  durationMinutes : Nat
  quality : Quality
deriving DecidableEq, Repr

/-- Attach a generated id to a sleep input. -/
def mkSleepEntry (nid : String) (e : SleepInput) : SleepEntry :=
  { id := nid, date := e.date, bedtime := e.bedtime, wakeup := e.wakeup,
    durationMinutes := e.durationMinutes, quality := e.quality }

/-- `addSleepEntry(entry)`: drop any existing entry with the same wake date,
then prepend the new one (`nid` is the generated id). -/
def addSleepEntry (s : StoreState) (e : SleepInput) (nid : String) : StoreState :=
  { s with sleepEntries :=
      mkSleepEntry nid e :: s.sleepEntries.filter (fun x => !(x.date == e.date)) }

/-- A `JournalEntry` without its generated id. -/
structure JournalInput where
  title : String
  content : String
  date : String
  mood : Option Mood
deriving DecidableEq, Repr

/-- `addJournalEntry(entry)` (`nid` is the generated id). -/
def addJournalEntry (s : StoreState) (e : JournalInput) (nid : String) : StoreState :=
  { s with journalEntries :=
      { id := nid, title := e.title, content := e.content, date := e.date, mood := e.mood }
        :: s.journalEntries }

/-! ### Persistence bridge: hydration from localStorage

`localStorage.getItem` returns `null` (`none`) or a raw string; `JSON.parse`
of the raw string either throws, yields a non-array value, or yields an
array of records.  The outcome of reading and decoding one key is modelled
by `Option (Decoded α)`. -/

/-- Outcome of `JSON.parse` on a present raw value. -/
inductive Decoded (α : Type) where
  | failure
  | notArray
  | array (xs : List α)
deriving DecidableEq

/-- Chat hydration effect: replace the in-memory transcript only when the
stored value decodes to an array with `length > 0`. -/
def hydrateChat (stored : Option (Decoded ChatMessage)) (cur : List ChatMessage) :
    List ChatMessage :=
  match stored with
  | some (Decoded.array xs) => if xs.length > 0 then xs else cur
  | _ => cur

/-- Sleep hydration effect: replace whenever the stored value decodes to an
array (`Array.isArray(parsed)`), empty or not. -/
def hydrateSleep (stored : Option (Decoded SleepEntry)) (cur : List SleepEntry) :
    List SleepEntry :=
  match stored with
  | some (Decoded.array xs) => xs
  | _ => cur

/-- Journal hydration effect: same shape as sleep hydration. -/
def hydrateJournal (stored : Option (Decoded JournalEntry)) (cur : List JournalEntry) :
    List JournalEntry :=
  match stored with
  | some (Decoded.array xs) => xs
  | _ => cur

/-! ### Shared sample data for witnesses -/

/-- A concrete store state used to instantiate universally quantified
theorems: one completed and one uncompleted habit, a todo, a sleep entry,
and a journal entry. -/
def sampleState : StoreState :=
  { todayMood := some Mood.okay,
    moodHistory := [{ date := "2026-10-10", mood := Mood.good, note := none }],
    habits :=
      [{ id := "a", name := "Meditate", completed := false, streak := 2,
         category := Category.mindfulness, dateCompleted := none },
       { id := "b", name := "Run", completed := true, streak := 5,
         category := Category.exercise, dateCompleted := some "2026-10-10" }],
    todos := [{ id := "t0", title := "Stretch", completed := false, category := Category.exercise }],
    chatMessages := initialChatMessages "2026-10-10T08:00:00Z",
    sleepEntries :=
      [{ id := "s0", date := "2026-10-09", bedtime := "23:00", wakeup := "07:00",
         durationMinutes := 480, quality := Quality.good }],
    journalEntries :=
      [{ id := "j0", title := "Day one", content := "Started tracking.",
         date := "2026-10-09", mood := some Mood.good }] }

/-- A concrete sleep input. -/
def sampleSleepA : SleepInput :=
  { date := "2026-10-11", bedtime := "22:30", wakeup := "06:30",
    durationMinutes := 480, quality := Quality.fair }

/-- A second sleep input for the same wake date with different values. -/
def sampleSleepB : SleepInput :=
  { date := "2026-10-11", bedtime := "23:45", wakeup := "07:15",
    durationMinutes := 450, quality := Quality.excellent }

/-- The state reached from the fresh provider state by one `addTodos` batch
holding two todos titled "Walk" (ids `t1`/`t2`, mirrored habit ids
`h1`/`h2`). -/
def walkTwiceState : StoreState :=
  addTodos (initialState "2026-10-11" "t0")
    [{ title := "Walk", category := Category.exercise },
     { title := "Walk", category := Category.exercise }]
    ["t1", "t2"] ["h1", "h2"]

/-! ### Helper lemmas -/

/-- Each `addHabit` body call leaves the previous habit list as a prefix of
the new one (it appends at most one habit). -/
theorem addHabitList_extends (stale cur : List HabitItem) (name : String)
    (cat : Category) (hid : String) :
    cur <+: addHabitList stale cur name cat hid := by
  unfold addHabitList
  split
  · exact List.prefix_refl _
  · exact List.prefix_append _ _

/-- The mirrored habit creation fold of `addTodos` also only appends. -/
theorem foldl_addHabit_extends (stale : List HabitItem)
    (ps : List (TodoItem × String)) (cur : List HabitItem) :
    cur <+: ps.foldl (fun acc p => addHabitList stale acc p.1.title p.1.category p.2) cur := by
  induction ps generalizing cur with
  | nil => exact List.prefix_refl _
  | cons p ps ih =>
      exact (addHabitList_extends stale cur p.1.title p.1.category p.2).trans (ih _)

/-- The canned fallback replies never begin with the safety preamble. -/
theorem botResponses_no_preamble (k : Fin 7) :
    strStartsWith safetyPreamble (botResponses.get ⟨k.1, by exact k.2⟩) = false := by
  fin_cases k <;> decide

/-- Shape facts about `fallbackTodos`, for all combinations of the four
keyword-test outcomes: between one and five items, no duplicate titles,
and every item drawn from the fixed conditional/default pool. -/
theorem fallbackTodos_shape (anx tir sad ang : Bool) :
    1 ≤ (fallbackTodos anx tir sad ang).length
    ∧ (fallbackTodos anx tir sad ang).length ≤ 5
    ∧ ((fallbackTodos anx tir sad ang).map Prod.fst).Nodup
    ∧ ((fallbackTodos anx tir sad ang).all (fun td =>
        (("5-minute breathing", Category.mindfulness) == td)
        || (("Wind-down routine before bed", Category.health) == td)
        || (("Journal for 5 minutes", Category.reflection) == td)
        || (("10-minute walk", Category.exercise) == td)
        || (("Hydrate: 8 glasses of water", Category.health) == td)
        || (("Read 10 pages", Category.learning) == td)) = true) := by
  cases anx <;> cases tir <;> cases sad <;> cases ang <;> decide

/-- The rule-based mood is always one of the five labels. -/
theorem fallbackMood_total (ex gd pr aw : Bool) :
    fallbackMood ex gd pr aw ∈
      [Mood.excellent, Mood.good, Mood.okay, Mood.poor, Mood.awful] := by
  cases ex <;> cases gd <;> cases pr <;> cases aw <;> decide

/-! ### Claims -/

/-- C1 counterexample: the user message `"suicide"` matches the crisis
pattern set, yet when the external call fails the final reply is the canned
fallback `botResponses[0]`, which does not start with the safety preamble.
The claim as stated (preamble regardless of success or failure) is false. -/
theorem sendMessage_crisis_fallback_missing_preamble :
    crisisMatch "suicide" = true
    ∧ strStartsWith safetyPreamble (sendMessageReply (Except.error ()) "suicide" 0) = false := by
  constructor
  · decide
  · decide

/-- C1 (amended): when the user message matches the crisis pattern set and
the external assistant call succeeds, the final reply is the safety preamble
followed by the model text; when the call fails, the final reply is one of
the canned fallback responses and does not start with the preamble. -/
theorem crisis_preamble_success_only (text userText : String) (e : Unit) (k : Fin 7)
    (hc : crisisMatch userText = true) :
    sendMessageReply (Except.ok text) userText k = safetyPreamble ++ text
    ∧ sendMessageReply (Except.error e) userText k ∈ botResponses
    ∧ strStartsWith safetyPreamble (sendMessageReply (Except.error e) userText k) = false := by
  refine ⟨?_, ?_, ?_⟩
  · simp [sendMessageReply, generateBotReply, hc]
  · simp only [sendMessageReply, generateBotReply]
    exact List.get_mem _ _ _
  · simp only [sendMessageReply, generateBotReply]
    exact botResponses_no_preamble k

/-- C1 witness: the amended theorem instantiated at a concrete crisis
message, model reply, and fallback index. -/
theorem crisis_preamble_success_only_witness :
    sendMessageReply (Except.ok "You matter.") "I think about suicide" 0
      = safetyPreamble ++ "You matter."
    ∧ sendMessageReply (Except.error ()) "I think about suicide" 0 ∈ botResponses
    ∧ strStartsWith safetyPreamble (sendMessageReply (Except.error ()) "I think about suicide" 0)
      = false :=
  crisis_preamble_success_only "You matter." "I think about suicide" () 0 (by decide)

/-- C2 counterexample: a present, structurally valid, empty stored chat
array does not replace the in-memory chat collection — the default greeting
transcript is kept, contradicting the claim that every present valid stored
array (including an empty one) replaces the corresponding collection. -/
theorem hydrateChat_empty_array_keeps_default :
    hydrateChat (some (Decoded.array [])) (initialChatMessages "t")
      = initialChatMessages "t"
    ∧ initialChatMessages "t" ≠ ([] : List ChatMessage) := by
  constructor
  · rfl
  · decide

/-- C2 (amended): at startup, for sleep and journal entries any present
structurally valid stored array — empty included — replaces the in-memory
collection, while absence, a non-array value, or a decode failure leaves it
untouched; for chat messages a present valid array replaces the in-memory
transcript only when it is non-empty, and an empty one also leaves the
default untouched. No failure propagates. -/
theorem hydration_spec (cs : List ChatMessage) (ss : List SleepEntry)
    (js : List JournalEntry) (xs : List ChatMessage) (ys : List SleepEntry)
    (zs : List JournalEntry) :
    hydrateChat none cs = cs
    ∧ hydrateChat (some Decoded.failure) cs = cs
    ∧ hydrateChat (some Decoded.notArray) cs = cs
    ∧ hydrateChat (some (Decoded.array xs)) cs = (if xs.length > 0 then xs else cs)
    ∧ hydrateSleep none ss = ss
    ∧ hydrateSleep (some Decoded.failure) ss = ss
    ∧ hydrateSleep (some Decoded.notArray) ss = ss
    ∧ hydrateSleep (some (Decoded.array ys)) ss = ys
    ∧ hydrateJournal none js = js
    ∧ hydrateJournal (some Decoded.failure) js = js
    ∧ hydrateJournal (some Decoded.notArray) js = js
    ∧ hydrateJournal (some (Decoded.array zs)) js = zs :=
  ⟨rfl, rfl, rfl, rfl, rfl, rfl, rfl, rfl, rfl, rfl, rfl, rfl⟩

/-- C3: `toggleHabit` flips the completion flag of the habit matching the
id, incrementing the streak by exactly one and stamping the completion date
on the incomplete-to-complete transition, leaving the streak unchanged and
clearing the date on the reverse transition, leaving all other habits (and
all other fields of the matched habit) unchanged, and doing nothing when no
habit matches. -/
theorem toggleHabit_spec (s : StoreState) (id today : String) :
    List.Forall₂ (fun h h' =>
      (h.id = id →
        h'.id = h.id ∧ h'.name = h.name ∧ h'.category = h.category
        ∧ h'.completed = !h.completed
        ∧ (h.completed = false → h'.streak = h.streak + 1 ∧ h'.dateCompleted = some today)
        ∧ (h.completed = true → h'.streak = h.streak ∧ h'.dateCompleted = none))
      ∧ (h.id ≠ id → h' = h))
      s.habits (toggleHabit s id today).habits
    ∧ ((∀ h ∈ s.habits, h.id ≠ id) → (toggleHabit s id today).habits = s.habits) := by
  constructor
  · simp only [toggleHabit]
    rw [List.forall₂_map_right_iff, List.forall₂_same]
    intro h _
    constructor
    · intro hid
      have hb : (h.id == id) = true := beq_iff_eq.mpr hid
      cases hc : h.completed <;> simp [hb, hc]
    · intro hid
      have hb : (h.id == id) = false := beq_eq_false_iff_ne.mpr hid
      simp [hb]
  · intro hnone
    simp only [toggleHabit]
    refine (List.map_congr_left ?_).trans (List.map_id' _)
    intro h hmem
    have hb : (h.id == id) = false := beq_eq_false_iff_ne.mpr (hnone h hmem)
    simp [hb]

/-- C3 witness: toggling an id absent from the sample state leaves the
habit collection unchanged. -/
theorem toggleHabit_spec_witness :
    (toggleHabit sampleState "zzz" "2026-10-11").habits = sampleState.habits :=
  (toggleHabit_spec sampleState "zzz" "2026-10-11").2 (by decide)

/-- C4: evaluation of the code at the failing input. Mirrored habit
creation inside one `addTodos` batch checks duplicates against the habit
list captured by the render closure (the pre-batch state), so a batch
containing two todos titled "Walk" creates two habits named "Walk",
violating case-insensitive name uniqueness — even though a direct
duplicate `addHabit` call is correctly a no-op (third conjunct). -/
theorem addTodos_batch_breaks_name_uniqueness :
    walkTwiceState.habits.map HabitItem.name = ["Walk", "Walk"]
    ∧ ¬ (walkTwiceState.habits.map (fun h => lowerStr h.name)).Nodup
    ∧ (addHabit walkTwiceState "walk" Category.health "h3").habits = walkTwiceState.habits := by
  refine ⟨by decide, by decide, by decide⟩

/-- C5: `addSleepEntry` has replace-by-date semantics: after two calls
whose inputs share a wake date, exactly one entry with that date remains
and it carries the second call's values and id; moreover a single call
preserves distinctness of wake dates. -/
theorem addSleepEntry_replace_by_date (s : StoreState) (e1 e2 : SleepInput)
    (id1 id2 : String) (hdate : e1.date = e2.date) :
    ((addSleepEntry (addSleepEntry s e1 id1) e2 id2).sleepEntries.filter
        (fun x => x.date == e2.date)) = [mkSleepEntry id2 e2]
    ∧ ((s.sleepEntries.map SleepEntry.date).Nodup →
        ((addSleepEntry s e1 id1).sleepEntries.map SleepEntry.date).Nodup) := by
  constructor
  · simp [addSleepEntry, mkSleepEntry, List.filter_filter, hdate, List.filter_cons,
      Bool.and_not_self]
  · intro hnd
    simp only [addSleepEntry, List.map_cons]
    rw [List.nodup_cons]
    refine ⟨?_, List.Nodup.sublist ((List.filter_sublist _).map _) hnd⟩
    simp [mkSleepEntry, List.mem_map, List.mem_filter]

/-- C5 witness: the theorem instantiated at the sample state and two
concrete sleep inputs that share the wake date 2026-10-11. -/
theorem addSleepEntry_replace_by_date_witness :
    ((addSleepEntry (addSleepEntry sampleState sampleSleepA "s1") sampleSleepB "s2").sleepEntries.filter
        (fun x => x.date == sampleSleepB.date)) = [mkSleepEntry "s2" sampleSleepB]
    ∧ ((addSleepEntry sampleState sampleSleepA "s1").sleepEntries.map SleepEntry.date).Nodup :=
  ⟨(addSleepEntry_replace_by_date sampleState sampleSleepA sampleSleepB "s1" "s2" rfl).1,
   (addSleepEntry_replace_by_date sampleState sampleSleepA sampleSleepB "s1" "s2" rfl).2
     (by decide)⟩

/-- C6: when no habit is named "Walk" case-insensitively, adding the single
todo batch `[{title := "Walk", category := exercise}]` prepends exactly one
fresh uncompleted todo and appends exactly one fresh habit named "Walk"
with category exercise, zero streak and no completion date; every other
collection is unchanged. -/
theorem addTodos_single_walk (s : StoreState) (tid hid : String)
    (hw : ∀ h ∈ s.habits, lowerStr h.name ≠ lowerStr "Walk") :
    (addTodos s [{ title := "Walk", category := Category.exercise }] [tid] [hid]).todos
      = { id := tid, title := "Walk", completed := false, category := Category.exercise }
          :: s.todos
    ∧ (addTodos s [{ title := "Walk", category := Category.exercise }] [tid] [hid]).habits
      = s.habits ++ [{ id := hid, name := "Walk", completed := false, streak := 0,
                       category := Category.exercise, dateCompleted := none }]
    ∧ (addTodos s [{ title := "Walk", category := Category.exercise }] [tid] [hid]).todayMood
      = s.todayMood
    ∧ (addTodos s [{ title := "Walk", category := Category.exercise }] [tid] [hid]).moodHistory
      = s.moodHistory
    ∧ (addTodos s [{ title := "Walk", category := Category.exercise }] [tid] [hid]).chatMessages
      = s.chatMessages
    ∧ (addTodos s [{ title := "Walk", category := Category.exercise }] [tid] [hid]).sleepEntries
      = s.sleepEntries
    ∧ (addTodos s [{ title := "Walk", category := Category.exercise }] [tid] [hid]).journalEntries
      = s.journalEntries := by
  simp [addTodos, addHabitList]
  exact hw

/-- C6 witness: the theorem applied at the sample state, whose habits are
named "Meditate" and "Run". -/
theorem addTodos_single_walk_witness :
    (addTodos sampleState [{ title := "Walk", category := Category.exercise }] ["t1"] ["h1"]).habits
      = sampleState.habits ++ [{ id := "h1", name := "Walk", completed := false, streak := 0,
                                 category := Category.exercise, dateCompleted := none }] :=
  (addTodos_single_walk sampleState "t1" "h1" (by decide)).2.1

/-- C7: for every input text the local keyword-rule fallback is total and
returns one of the five mood labels together with between one and five
action items, each drawn from the fixed conditional/default pool, with no
two items sharing a title. -/
theorem fallbackAnalyze_total_shape (text : String) :
    (fallbackAnalyze text).mood ∈
      [Mood.excellent, Mood.good, Mood.okay, Mood.poor, Mood.awful]
    ∧ 1 ≤ (fallbackAnalyze text).todos.length
    ∧ (fallbackAnalyze text).todos.length ≤ 5
    ∧ ((fallbackAnalyze text).todos.map Prod.fst).Nodup
    ∧ ((fallbackAnalyze text).todos.all (fun td =>
        (("5-minute breathing", Category.mindfulness) == td)
        || (("Wind-down routine before bed", Category.health) == td)
        || (("Journal for 5 minutes", Category.reflection) == td)
        || (("10-minute walk", Category.exercise) == td)
        || (("Hydrate: 8 glasses of water", Category.health) == td)
        || (("Read 10 pages", Category.learning) == td)) = true) := by
  simp only [fallbackAnalyze]
  exact ⟨fallbackMood_total _ _ _ _, (fallbackTodos_shape _ _ _ _).1,
    (fallbackTodos_shape _ _ _ _).2.1, (fallbackTodos_shape _ _ _ _).2.2.1,
    (fallbackTodos_shape _ _ _ _).2.2.2⟩

/-- C8: on the input `"I feel anxious and can't sleep"` the fallback
classifier returns mood `poor` and an action list containing the
breathing/mindfulness item and the wind-down/health item, with between one
and five items and no duplicate titles. -/
theorem fallbackAnalyze_anxious_sleep :
    (fallbackAnalyze "I feel anxious and can\x27t sleep").mood = Mood.poor
    ∧ ("5-minute breathing", Category.mindfulness)
        ∈ (fallbackAnalyze "I feel anxious and can\x27t sleep").todos
    ∧ ("Wind-down routine before bed", Category.health)
        ∈ (fallbackAnalyze "I feel anxious and can\x27t sleep").todos
    ∧ 1 ≤ (fallbackAnalyze "I feel anxious and can\x27t sleep").todos.length
    ∧ (fallbackAnalyze "I feel anxious and can\x27t sleep").todos.length ≤ 5
    ∧ ((fallbackAnalyze "I feel anxious and can\x27t sleep").todos.map Prod.fst).Nodup := by
  decide

/-- C9: `setTodayMood` sets the current-session mood indicator and changes
nothing else: mood history, habits, todos, chat, sleep and journal
collections are all left unchanged. -/
theorem setTodayMood_frame (s : StoreState) (m : Mood) :
    (setTodayMood s m).todayMood = some m
    ∧ (setTodayMood s m).moodHistory = s.moodHistory
    ∧ (setTodayMood s m).habits = s.habits
    ∧ (setTodayMood s m).todos = s.todos
    ∧ (setTodayMood s m).chatMessages = s.chatMessages
    ∧ (setTodayMood s m).sleepEntries = s.sleepEntries
    ∧ (setTodayMood s m).journalEntries = s.journalEntries :=
  ⟨rfl, rfl, rfl, rfl, rfl, rfl, rfl⟩

/-- C10: streaks of existing habits never decrease under any habit-creating
or habit-modifying operation: `toggleHabit` maps each habit's streak to
itself or to itself plus one, while `addHabit` and `addTodos` keep the old
habit list as an unchanged prefix and `deleteHabit` keeps the surviving
habits as an unchanged sublist. -/
theorem habit_streak_monotone (s : StoreState) (id today name hid : String)
    (cat : Category) (items : List TodoInput) (tids hids : List String) :
    List.Forall₂ (fun h h' => h'.streak = h.streak ∨ h'.streak = h.streak + 1)
      s.habits (toggleHabit s id today).habits
    ∧ s.habits <+: (addHabit s name cat hid).habits
    ∧ List.Sublist (deleteHabit s id).habits s.habits
    ∧ s.habits <+: (addTodos s items tids hids).habits := by
  refine ⟨?_, ?_, ?_, ?_⟩
  · simp only [toggleHabit]
    rw [List.forall₂_map_right_iff, List.forall₂_same]
    intro h _
    by_cases hb : (h.id == id) = true
    · cases hc : h.completed <;> simp [hb, hc]
    · simp [hb]
  · exact addHabitList_extends _ _ _ _ _
  · exact List.filter_sublist _
  · exact foldl_addHabit_extends _ _ _

end PeacePulse

